import Mathlib

/-!
# Verification of the nanoELS-flow motion-control core

A shallow embedding of the cutting-operation engine of the nanoELS-flow
electronic-lead-screw controller, together with proofs and refutations of
the specification's claims about it.

The embedding follows the C++ sources:

* `src/nanoELS-flow/MinimalMotionControl.{h,cpp}` — spindle tracking with
  backlash compensation, per-axis targets with soft limits, the
  spindle↔axis position mappings, emergency stop;
* `src/nanoELS-flow/OperationManager.{h,cpp}`    — the multi-pass
  cutting-operation state machine, numpad entry, parameter calculation;
* `src/nanoELS-flow/SetupConstants.cpp`          — the hardware constants.

Modelling conventions:

* C `int32_t`/`long` values are modelled as `Int`.  Where a 32-bit
  multiplication can realistically overflow (the products inside
  `positionFromSpindle` / `spindleFromPosition` / `posFromSpindle`), the
  wraparound is modelled explicitly by `wrap32`.  Slowly accumulating
  counters (axis and spindle positions) are modelled as unbounded
  integers, since wrapping them needs ~2·10⁹ encoder ticks.
* C `float`/`double` intermediate arithmetic is modelled exactly over `ℚ`;
  every concrete value appearing in a theorem below is small enough to be
  exactly representable in the source's floating-point types, so the
  rational model and the machine computation agree on them.
* The C `(int32_t)`/`(long)` cast of a floating value truncates toward
  zero: `ratTrunc`.  The C `round` function rounds half away from zero:
  `cRound`.
* Hardware access (GPIO, PCNT read) is factored out: functions that read
  the pulse counter take the freshly read counter value as an argument.
-/

namespace NanoELS

/-! ## Hardware constants (SetupConstants.cpp, MinimalMotionControl.h) -/

/-- `ENCODER_PPR` (MinimalMotionControl.h line 26). -/
def ENCODER_PPR : Int := 600

/-- `ENCODER_STEPS_INT = ENCODER_PPR * 2` (MinimalMotionControl.h line 27);
`ENCODER_STEPS_FLOAT = 1200.0` is its floating twin. -/
def encoderSteps : Int := 1200

/-- `ENCODER_BACKLASH` (MinimalMotionControl.h line 29). -/
def ENCODER_BACKLASH : Int := 3

/-- `MOTOR_STEPS_Z` (SetupConstants.cpp line 19). -/
def MOTOR_STEPS_Z : Int := 4000

/-- `SCREW_Z_DU` (SetupConstants.cpp line 18). -/
def SCREW_Z_DU : Int := 50000

/-- `MOTOR_STEPS_X` (SetupConstants.cpp line 32). -/
def MOTOR_STEPS_X : Int := 4000

/-- `SCREW_X_DU` (SetupConstants.cpp line 31). -/
def SCREW_X_DU : Int := 40000

/-- `LONG_MAX` on the 32-bit target, the default `leftStop`. -/
def LONG_MAX : Int := 2147483647

/-- `LONG_MIN` on the 32-bit target, the default `rightStop`. -/
def LONG_MIN : Int := -2147483648

/-! ## Machine-arithmetic helpers -/

/-- Two's-complement wraparound of a 32-bit signed multiplication or
addition result. -/
def wrap32 (n : Int) : Int := (n + 2 ^ 31) % 2 ^ 32 - 2 ^ 31

/-- Truncation toward zero, the behaviour of C's `(int32_t)`/`(long)`
cast applied to a floating-point value. -/
def ratTrunc (x : ℚ) : Int := if 0 ≤ x then ⌊x⌋ else ⌈x⌉

/-- C's `round`: round half away from zero. -/
def cRound (x : ℚ) : Int := if 0 ≤ x then ⌊x + 1 / 2⌋ else ⌈x - 1 / 2⌉

theorem wrap32_eq_self {n : Int} (h1 : -2 ^ 31 ≤ n) (h2 : n < 2 ^ 31) :
    wrap32 n = n := by
  unfold wrap32
  omega

theorem ratTrunc_intCast (n : Int) : ratTrunc (n : ℚ) = n := by
  unfold ratTrunc
  split <;> simp

theorem sub_ratTrunc_lt_one (x : ℚ) : |x - ratTrunc x| < 1 := by
  by_cases h : 0 ≤ x
  · rw [ratTrunc, if_pos h, abs_of_nonneg (by simp [Int.floor_le x])]
    have := Int.lt_floor_add_one x
    push_cast at this ⊢
    linarith
  · rw [ratTrunc, if_neg h, abs_of_nonpos (by simpa using Int.le_ceil x)]
    have := Int.ceil_lt_add_one x
    push_cast at this ⊢
    linarith

/-! ## MinimalMotionControl state

`MinimalAxis` (MinimalMotionControl.h lines 41–80).  The hardware-pin,
speed-ramp and step-timing fields are not part of any modelled function
(they belong to the real-time pulse generator, out of scope here) and are
omitted. -/

structure MinimalAxis where
  position : Int
  targetPosition : Int
  moving : Bool
  motorSteps : Int
  screwPitch : Int
  leftStop : Int
  rightStop : Int
  enabled : Bool
deriving DecidableEq

/-- `SpindleTracker` (MinimalMotionControl.h lines 83–96). -/
structure SpindleTracker where
  position : Int
  positionAvg : Int
  lastCount : Int
  threadPitch : Int
  threadStarts : Int
  threadingActive : Bool
deriving DecidableEq

/-- The `MinimalMotionControl` object state (MinimalMotionControl.h lines
107–226).  Of the MPG trackers only the `active` flags are modelled (the
only MPG field the functions below read).  Axis 0 is X, axis 1 is Z. -/
structure MinimalMotionControl where
  axes : Fin 2 → MinimalAxis
  spindle : SpindleTracker
  mpgActive : Fin 2 → Bool
  emergencyStop : Bool
deriving DecidableEq

namespace MinimalMotionControl

/-- Constructor state (MinimalMotionControl.cpp lines 9–67): positions and
spindle counters zero, no limits (`leftStop = LONG_MAX`,
`rightStop = LONG_MIN`), axes disabled, MPG inactive. -/
def init : MinimalMotionControl where
  axes := fun i =>
    { position := 0
      targetPosition := 0
      moving := false
      motorSteps := if i = 0 then MOTOR_STEPS_X else MOTOR_STEPS_Z
      screwPitch := if i = 0 then SCREW_X_DU else SCREW_Z_DU
      leftStop := LONG_MAX
      rightStop := LONG_MIN
      enabled := false }
  spindle :=
    { position := 0
      positionAvg := 0
      lastCount := 0
      threadPitch := 0
      threadStarts := 1
      threadingActive := false }
  mpgActive := fun _ => false
  emergencyStop := false

/-- `MinimalMotionControl::setTargetPosition` (MinimalMotionControl.cpp
lines 304–308): stores `steps` into `targetPosition` unmodified (the
`0 ≤ axis < 2` guard is absorbed by the `Fin 2` index). -/
def setTargetPosition (m : MinimalMotionControl) (axis : Fin 2) (steps : Int) :
    MinimalMotionControl :=
  let a' := { m.axes axis with targetPosition := steps }
  { m with axes := Function.update m.axes axis a' }

/-- `MinimalMotionControl::stopAxis` (MinimalMotionControl.cpp lines
316–321). -/
def stopAxis (m : MinimalMotionControl) (axis : Fin 2) : MinimalMotionControl :=
  let a' := { m.axes axis with
                targetPosition := (m.axes axis).position
                moving := false }
  { m with axes := Function.update m.axes axis a' }

/-- `MinimalMotionControl::stopAllAxes` (MinimalMotionControl.cpp lines
323–327): `stopAxis(0)` then `stopAxis(1)`. -/
def stopAllAxes (m : MinimalMotionControl) : MinimalMotionControl :=
  (m.stopAxis 0).stopAxis 1

/-- `MinimalMotionControl::setThreadPitch` (MinimalMotionControl.cpp lines
330–333).  NOTE: the C++ declaration gives `starts` a default value of 1
(MinimalMotionControl.h line 163), so one-argument call sites reset
`threadStarts` to 1. -/
def setThreadPitch (m : MinimalMotionControl) (dupr starts : Int) :
    MinimalMotionControl :=
  { m with spindle := { m.spindle with threadPitch := dupr, threadStarts := starts } }

/-- `MinimalMotionControl::startThreading` (MinimalMotionControl.cpp lines
335–337). -/
def startThreading (m : MinimalMotionControl) : MinimalMotionControl :=
  { m with spindle := { m.spindle with threadingActive := true } }

/-- `MinimalMotionControl::stopThreading` (MinimalMotionControl.cpp lines
339–341). -/
def stopThreading (m : MinimalMotionControl) : MinimalMotionControl :=
  { m with spindle := { m.spindle with threadingActive := false } }

/-- `MinimalMotionControl::setEmergencyStop` (MinimalMotionControl.cpp
lines 370–376). -/
def setEmergencyStop (m : MinimalMotionControl) (stop : Bool) :
    MinimalMotionControl :=
  let m' := { m with emergencyStop := stop }
  if stop then m'.stopAllAxes.stopThreading else m'

/-- `MinimalMotionControl::resetSpindlePosition` (MinimalMotionControl.cpp
lines 393–398). -/
def resetSpindlePosition (m : MinimalMotionControl) : MinimalMotionControl :=
  { m with spindle := { m.spindle with position := 0, positionAvg := 0, lastCount := 0 } }

/-- `MinimalMotionControl::updateSpindleTracking` (MinimalMotionControl.cpp
lines 167–199).  `count` is the value just read from the hardware pulse
counter (`pcnt_get_counter_value`); clearing the hardware register on
overflow is reflected by resetting `lastCount` to 0. -/
def updateSpindleTracking (m : MinimalMotionControl) (count : Int) :
    MinimalMotionControl :=
  let delta := count - m.spindle.lastCount
  if delta = 0 then m
  else
    let lastCount' := if 30000 ≤ count ∨ count ≤ -30000 then 0 else count
    let pos' := m.spindle.position + delta
    let avg' :=
      if m.spindle.positionAvg < pos' then pos'
      else if pos' < m.spindle.positionAvg - ENCODER_BACKLASH then
        pos' + ENCODER_BACKLASH
      else m.spindle.positionAvg
    { m with spindle :=
        { m.spindle with position := pos', positionAvg := avg', lastCount := lastCount' } }

/-- `MinimalMotionControl::positionFromSpindle` (MinimalMotionControl.cpp
lines 144–156).  The C expression is
`spindlePos * a.motorSteps / a.screwPitch / ENCODER_STEPS_FLOAT * spindle.threadPitch * spindle.threadStarts`:
a 32-bit multiply (wrapping), a C integer division (truncating toward
zero), then `double` arithmetic truncated back to `int32_t`, finally the
two sequential soft-limit clamps. -/
def positionFromSpindle (m : MinimalMotionControl) (axis : Fin 2)
    (spindlePos : Int) : Int :=
  let a := m.axes axis
  let q := (wrap32 (spindlePos * a.motorSteps)).tdiv a.screwPitch
  let newPos := ratTrunc ((q : ℚ) / 1200 * m.spindle.threadPitch * m.spindle.threadStarts)
  let newPos := if newPos < a.rightStop then a.rightStop else newPos
  if a.leftStop < newPos then a.leftStop else newPos

/-- `MinimalMotionControl::spindleFromPosition` (MinimalMotionControl.cpp
lines 159–164).  The C expression is
`axisPos * a.screwPitch * ENCODER_STEPS_FLOAT / a.motorSteps / (spindle.threadPitch * spindle.threadStarts)`:
both parenthesised products are 32-bit multiplies (wrapping); the rest is
`double` arithmetic truncated back to `int32_t`. -/
def spindleFromPosition (m : MinimalMotionControl) (axis : Fin 2)
    (axisPos : Int) : Int :=
  let a := m.axes axis
  ratTrunc ((wrap32 (axisPos * a.screwPitch) : ℚ) * 1200 / a.motorSteps /
    (wrap32 (m.spindle.threadPitch * m.spindle.threadStarts) : ℚ))

/-- `MinimalMotionControl::processMPGMovement` (MinimalMotionControl.cpp
lines 549–562): when the axis's MPG is active, clamp `targetPosition`
into `[rightStop, leftStop]`; otherwise do nothing. -/
def processMPGMovement (m : MinimalMotionControl) (axis : Fin 2) :
    MinimalMotionControl :=
  if ¬ m.mpgActive axis then m
  else
    let a := m.axes axis
    let t :=
      if a.leftStop < a.targetPosition then a.leftStop
      else if a.targetPosition < a.rightStop then a.rightStop
      else a.targetPosition
    { m with axes := Function.update m.axes axis ({ a with targetPosition := t }) }

end MinimalMotionControl

end NanoELS

namespace NanoELS

namespace MinimalMotionControl

/-- `MinimalMotionControl::enableMPG` (MinimalMotionControl.cpp lines
565–578); only the `active` flag is part of the model. -/
def enableMPG (m : MinimalMotionControl) (axis : Fin 2) (en : Bool) :
    MinimalMotionControl :=
  { m with mpgActive := Function.update m.mpgActive axis en }

/-- `MinimalMotionControl::setSoftLimits` (MinimalMotionControl.cpp lines
378–383). -/
def setSoftLimits (m : MinimalMotionControl) (axis : Fin 2)
    (leftLimit rightLimit : Int) : MinimalMotionControl :=
  let a' := { m.axes axis with leftStop := leftLimit, rightStop := rightLimit }
  { m with axes := Function.update m.axes axis a' }

end MinimalMotionControl

/-! ## Reachable spindle-tracker states (for the backlash invariant) -/

/-- The two operations that mutate the spindle tracker's counters:
an `updateSpindleTracking` step with a freshly read hardware count, and
`resetSpindlePosition`. -/
inductive SpindleOp where
  | update (count : Int)
  | reset
deriving DecidableEq

def applySpindleOp (m : MinimalMotionControl) : SpindleOp → MinimalMotionControl
  | .update c => m.updateSpindleTracking c
  | .reset => m.resetSpindlePosition

def runSpindleOps (m : MinimalMotionControl) (ops : List SpindleOp) :
    MinimalMotionControl :=
  ops.foldl applySpindleOp m

def runUpdates (m : MinimalMotionControl) (cs : List Int) :
    MinimalMotionControl :=
  cs.foldl MinimalMotionControl.updateSpindleTracking m

/-- Backlash gap invariant: the compensated position trails the raw
position by at most `ENCODER_BACKLASH` and never lags behind it. -/
def spindleGapInv (m : MinimalMotionControl) : Prop :=
  m.spindle.position ≤ m.spindle.positionAvg ∧
  m.spindle.positionAvg ≤ m.spindle.position + ENCODER_BACKLASH

theorem spindleGapInv_init : spindleGapInv MinimalMotionControl.init := by
  constructor <;> simp [MinimalMotionControl.init, ENCODER_BACKLASH]

theorem spindleGapInv_update {m : MinimalMotionControl} (h : spindleGapInv m)
    (c : Int) : spindleGapInv (m.updateSpindleTracking c) := by
  obtain ⟨h1, h2⟩ := h
  unfold MinimalMotionControl.updateSpindleTracking
  by_cases hd : c - m.spindle.lastCount = 0
  · rw [if_pos hd]; exact ⟨h1, h2⟩
  · rw [if_neg hd]
    simp only [spindleGapInv, ENCODER_BACKLASH] at *
    split_ifs <;> constructor <;> omega

theorem spindleGapInv_reset {m : MinimalMotionControl} :
    spindleGapInv m.resetSpindlePosition := by
  constructor <;> simp [MinimalMotionControl.resetSpindlePosition, ENCODER_BACKLASH]

theorem spindleGapInv_apply {m : MinimalMotionControl} (h : spindleGapInv m)
    (op : SpindleOp) : spindleGapInv (applySpindleOp m op) := by
  cases op with
  | update c => exact spindleGapInv_update h c
  | reset => exact spindleGapInv_reset

theorem spindleGapInv_run {m : MinimalMotionControl} (h : spindleGapInv m) :
    ∀ ops : List SpindleOp, spindleGapInv (runSpindleOps m ops) := by
  intro ops
  induction ops generalizing m with
  | nil => exact h
  | cons op ops ih => exact ih (spindleGapInv_apply h op)

/-- A single tracking update whose delta is non-negative (equivalently:
whose raw position does not decrease) cannot decrease the compensated
position. -/
theorem positionAvg_mono_step {m : MinimalMotionControl} (h : spindleGapInv m)
    {c : Int}
    (hpos : m.spindle.position ≤ (m.updateSpindleTracking c).spindle.position) :
    m.spindle.positionAvg ≤ (m.updateSpindleTracking c).spindle.positionAvg := by
  obtain ⟨h1, h2⟩ := h
  unfold MinimalMotionControl.updateSpindleTracking at hpos ⊢
  by_cases hd : c - m.spindle.lastCount = 0
  · rw [if_pos hd]
  · rw [if_neg hd] at hpos ⊢
    simp only [ENCODER_BACKLASH] at *
    split_ifs <;> omega

/-- The raw-position trace along a list of update counts is
non-decreasing at every step. -/
def posNondecreasing (m : MinimalMotionControl) : List Int → Prop
  | [] => True
  | c :: cs =>
    m.spindle.position ≤ (m.updateSpindleTracking c).spindle.position ∧
    posNondecreasing (m.updateSpindleTracking c) cs

theorem positionAvg_mono_run {m : MinimalMotionControl} (h : spindleGapInv m)
    {cs : List Int} (hmono : posNondecreasing m cs) :
    m.spindle.positionAvg ≤ (runUpdates m cs).spindle.positionAvg := by
  induction cs generalizing m with
  | nil => simp [runUpdates]
  | cons c cs ih =>
    obtain ⟨hstep, hrest⟩ := hmono
    calc m.spindle.positionAvg
        ≤ (m.updateSpindleTracking c).spindle.positionAvg :=
          positionAvg_mono_step h hstep
      _ ≤ (runUpdates (m.updateSpindleTracking c) cs).spindle.positionAvg :=
          ih (spindleGapInv_update h c) hrest

end NanoELS

namespace NanoELS

/-! ## Claim C1 — emergency stop halts both axes and synchronized motion -/

/-- Shared helper: what `setEmergencyStop(true)` does to the
`MinimalMotionControl` state — both axes get `targetPosition := position`
and `moving := false`, and `threadingActive` is cleared. -/
theorem setEmergencyStop_true_mc (m : MinimalMotionControl) (i : Fin 2) :
    ((m.setEmergencyStop true).axes i).targetPosition = (m.axes i).position ∧
    ((m.setEmergencyStop true).axes i).moving = false ∧
    (m.setEmergencyStop true).spindle.threadingActive = false := by
  unfold MinimalMotionControl.setEmergencyStop MinimalMotionControl.stopAllAxes
    MinimalMotionControl.stopAxis MinimalMotionControl.stopThreading
  fin_cases i <;> simp [Function.update]

/-- C1.  For every prior state of the two axes, `setEmergencyStop(true)`
synchronously sets each axis's `targetPosition` to its current position,
clears `moving` on both axes, and clears `threadingActive`
(MinimalMotionControl.cpp lines 370–376, 316–327, 339–341). -/
theorem setEmergencyStop_true_stops_all (m : MinimalMotionControl) (i : Fin 2) :
    ((m.setEmergencyStop true).axes i).targetPosition = (m.axes i).position ∧
    ((m.setEmergencyStop true).axes i).moving = false ∧
    (m.setEmergencyStop true).spindle.threadingActive = false :=
  setEmergencyStop_true_mc m i

/-! ## Claim C4 — the backlash deadband filter, step by step -/

/-- C4.  A spindle-tracking update with non-zero hardware tick delta adds
the delta to `position` and then moves `positionAvg` by the three-case
deadband rule; an update with zero delta changes nothing
(MinimalMotionControl.cpp lines 167–199). -/
theorem updateSpindleTracking_spec (m : MinimalMotionControl) (count : Int) :
    (count - m.spindle.lastCount = 0 → m.updateSpindleTracking count = m) ∧
    (count - m.spindle.lastCount ≠ 0 →
      (m.updateSpindleTracking count).spindle.position =
          m.spindle.position + (count - m.spindle.lastCount) ∧
      (m.updateSpindleTracking count).spindle.positionAvg =
        (if m.spindle.positionAvg < m.spindle.position + (count - m.spindle.lastCount)
         then m.spindle.position + (count - m.spindle.lastCount)
         else if m.spindle.position + (count - m.spindle.lastCount) <
             m.spindle.positionAvg - ENCODER_BACKLASH
         then m.spindle.position + (count - m.spindle.lastCount) + ENCODER_BACKLASH
         else m.spindle.positionAvg)) := by
  constructor
  · intro hd
    unfold MinimalMotionControl.updateSpindleTracking
    rw [if_pos hd]
  · intro hd
    unfold MinimalMotionControl.updateSpindleTracking
    rw [if_neg hd]
    exact ⟨rfl, rfl⟩

/-- Witness for C4: at the initial state, a read count of 0 (delta 0) is a
no-op, and a read count of 5 (delta 5) advances `position` to 5. -/
theorem updateSpindleTracking_spec_witness :
    MinimalMotionControl.init.updateSpindleTracking 0 = MinimalMotionControl.init ∧
    (MinimalMotionControl.init.updateSpindleTracking 5).spindle.position = 5 := by
  constructor
  · exact (updateSpindleTracking_spec MinimalMotionControl.init 0).1 (by decide)
  · have h := (updateSpindleTracking_spec MinimalMotionControl.init 5).2 (by decide)
    rw [h.1]; decide

/-! ## Claim C8 — backlash gap invariant and monotonicity, all reachable states -/

/-- C8.  In every state reachable from the initial state by any sequence
of spindle-tracking updates (arbitrary hardware counts, hence arbitrary
tick deltas) and spindle resets, `|position − positionAvg| ≤
ENCODER_BACKLASH`; and from any such state, along any further run of
updates whose raw-position trace is non-decreasing, `positionAvg` never
decreases (MinimalMotionControl.cpp lines 186–196, 393–398). -/
theorem spindle_backlash_invariant (ops : List SpindleOp) (cs : List Int)
    (hmono : posNondecreasing (runSpindleOps MinimalMotionControl.init ops) cs) :
    |(runSpindleOps MinimalMotionControl.init ops).spindle.position -
        (runSpindleOps MinimalMotionControl.init ops).spindle.positionAvg| ≤
      ENCODER_BACKLASH ∧
    (runSpindleOps MinimalMotionControl.init ops).spindle.positionAvg ≤
      (runUpdates (runSpindleOps MinimalMotionControl.init ops) cs).spindle.positionAvg := by
  have hinv := spindleGapInv_run spindleGapInv_init ops
  obtain ⟨h1, h2⟩ := hinv
  refine ⟨?_, positionAvg_mono_run ⟨h1, h2⟩ hmono⟩
  rw [abs_le]
  constructor <;> [linarith; linarith [ENCODER_BACKLASH]]

/-- Witness for C8: the empty history followed by a single forward update
(count 5, delta 5). -/
theorem spindle_backlash_invariant_witness :
    |(runSpindleOps MinimalMotionControl.init []).spindle.position -
        (runSpindleOps MinimalMotionControl.init []).spindle.positionAvg| ≤
      ENCODER_BACKLASH ∧
    (runSpindleOps MinimalMotionControl.init []).spindle.positionAvg ≤
      (runUpdates (runSpindleOps MinimalMotionControl.init []) [5]).spindle.positionAvg :=
  spindle_backlash_invariant [] [5] ⟨by decide, trivial⟩

/-! ## Claim C3 — `setTargetPosition` does NOT clamp to the soft limits -/

/-- Counterexample to C3.  With soft limits `[−10, 10]` on axis X,
`setTargetPosition(AXIS_X, 100)` stores 100, and `getTargetPosition`
returns 100 — outside the soft-limit envelope.  The claim that the stored
target is never outside `[softLimitLow, softLimitHigh]` is false:
`MinimalMotionControl::setTargetPosition` (MinimalMotionControl.cpp lines
304–308) stores the raw value with no clamping. -/
theorem setTargetPosition_no_clamp_counterexample :
    ((((MinimalMotionControl.init.setSoftLimits 0 10 (-10)).setTargetPosition
        0 100).axes 0).targetPosition = 100) ∧
    ¬ ((((MinimalMotionControl.init.setSoftLimits 0 10 (-10)).setTargetPosition
        0 100).axes 0).targetPosition ≤
          (((MinimalMotionControl.init.setSoftLimits 0 10 (-10)).setTargetPosition
        0 100).axes 0).leftStop) := by
  decide

/-- C3 amended.  `setTargetPosition` stores the requested target verbatim
(no clamping); the soft limits are instead enforced by
`processMPGMovement` (for MPG moves, MinimalMotionControl.cpp lines
549–562) and inside `positionFromSpindle` (for synchronized targets),
not at the `setTarget` boundary. -/
theorem setTargetPosition_stores_raw (m : MinimalMotionControl) (i : Fin 2)
    (steps : Int) (hmpg : m.mpgActive i = true)
    (hlim : (m.axes i).rightStop ≤ (m.axes i).leftStop) :
    ((m.setTargetPosition i steps).axes i).targetPosition = steps ∧
    (m.axes i).rightStop ≤ ((m.processMPGMovement i).axes i).targetPosition ∧
    ((m.processMPGMovement i).axes i).targetPosition ≤ (m.axes i).leftStop := by
  refine ⟨by simp [MinimalMotionControl.setTargetPosition], ?_, ?_⟩ <;>
  · unfold MinimalMotionControl.processMPGMovement
    simp [hmpg]
    split_ifs <;> omega

/-- Witness for C3's amended statement: axis X of the initial state with
MPG active and soft limits `[−10, 10]`. -/
theorem setTargetPosition_stores_raw_witness :
    (((((MinimalMotionControl.init.enableMPG 0 true).setSoftLimits 0 10
        (-10)).setTargetPosition 0 100).axes 0).targetPosition = 100) :=
  (setTargetPosition_stores_raw
    ((MinimalMotionControl.init.enableMPG 0 true).setSoftLimits 0 10 (-10)) 0 100
    (by decide) (by decide)).1

end NanoELS

namespace NanoELS

/-! ## OperationManager state (OperationManager.h lines 24–134) -/

inductive OperationMode where
  | MODE_NORMAL | MODE_TURN | MODE_FACE | MODE_THREAD | MODE_CONE
  | MODE_CUT | MODE_ASYNC | MODE_ELLIPSE | MODE_GCODE
deriving DecidableEq

inductive OperationState where
  | STATE_IDLE | STATE_DIRECTION_SETUP | STATE_TOUCHOFF_X | STATE_TOUCHOFF_Z
  | STATE_PARKING_SETUP | STATE_TARGET_DIAMETER | STATE_TARGET_LENGTH
  | STATE_SETUP_PASSES | STATE_SETUP_STARTS | STATE_SETUP_CONE
  | STATE_READY | STATE_RUNNING | STATE_PARKING | STATE_NEXT_PASS
deriving DecidableEq

inductive PassSubState where
  | SUBSTATE_MOVE_TO_START | SUBSTATE_SYNC_SPINDLE | SUBSTATE_CUTTING
  | SUBSTATE_RETRACTING | SUBSTATE_RETURNING
deriving DecidableEq

inductive ArrowKeyMode where
  | ARROW_MOTION_MODE | ARROW_NAVIGATION_MODE
deriving DecidableEq

/-- The `OperationManager` object state (OperationManager.h lines 71–134).
`float` members are modelled over `ℚ`; `numpadDigits[20]` as a 20-element
list.  The cutting-parameter-advisor members (`cuttingParams*`) feed only
the RPM recommendation display and are omitted. -/
structure OperationManager where
  currentMode : OperationMode
  currentState : OperationState
  passSubState : PassSubState
  setupIndex : Int
  touchOffXCoord : ℚ
  touchOffZCoord : ℚ
  touchOffXValid : Bool
  touchOffZValid : Bool
  inNumpadInput : Bool
  numpadDigits : List Int
  numpadIndex : Int
  currentMeasure : Int
  touchOffAxis : Int
  arrowKeyMode : ArrowKeyMode
  isInternalOperation : Bool
  isLeftToRight : Bool
  touchOffX : Int
  touchOffZ : Int
  touchOffComplete : Bool
  parkingPositionX : Int
  parkingPositionZ : Int
  parkingPositionSet : Bool
  targetDiameter : Int
  targetZLength : Int
  cutLength : Int
  cutDepth : Int
  numPasses : Int
  coneRatio : ℚ
  currentPass : Int
  passDepth : Int
  opDuprSign : Int
  opDupr : Int
  spindleSyncPos : Int
  startOffset : Int
deriving DecidableEq

namespace OperationManager

/-- Constructor state (OperationManager.cpp lines 8–59). -/
def init : OperationManager where
  currentMode := .MODE_NORMAL
  currentState := .STATE_IDLE
  passSubState := .SUBSTATE_MOVE_TO_START
  setupIndex := 0
  touchOffXCoord := 0
  touchOffZCoord := 0
  touchOffXValid := false
  touchOffZValid := false
  inNumpadInput := false
  numpadDigits := List.replicate 20 0
  numpadIndex := 0
  currentMeasure := 0
  touchOffAxis := 0
  arrowKeyMode := .ARROW_MOTION_MODE
  isInternalOperation := false
  isLeftToRight := false
  touchOffX := 0
  touchOffZ := 0
  touchOffComplete := false
  parkingPositionX := 0
  parkingPositionZ := 0
  parkingPositionSet := false
  targetDiameter := 0
  targetZLength := 0
  cutLength := 0
  cutDepth := 0
  numPasses := 3
  coneRatio := 0
  currentPass := 0
  passDepth := 0
  opDuprSign := 1
  opDupr := 0
  spindleSyncPos := 0
  startOffset := 0

/-- `OperationManager::mmToSteps` (OperationManager.cpp lines 65–73):
`round(mm * MOTOR_STEPS / (SCREW_DU / 10000.0f))`. -/
def mmToSteps (mm : ℚ) (axis : Fin 2) : Int :=
  if axis = 0 then cRound (mm * MOTOR_STEPS_X / ((SCREW_X_DU : ℚ) / 10000))
  else cRound (mm * MOTOR_STEPS_Z / ((SCREW_Z_DU : ℚ) / 10000))

/-- `OperationManager::stepsToMm` (OperationManager.cpp lines 75–83). -/
def stepsToMm (steps : Int) (axis : Fin 2) : ℚ :=
  if axis = 0 then (steps : ℚ) * ((SCREW_X_DU : ℚ) / 10000) / MOTOR_STEPS_X
  else (steps : ℚ) * ((SCREW_Z_DU : ℚ) / 10000) / MOTOR_STEPS_Z

/-- `OperationManager::numpadPress` (OperationManager.cpp lines 120–138).
When `numpadIndex` has reached 19 the new digit is first written at index
19, then the `for` loop copies elements 1…19 down to 0…18 (so the element
landing at index 18 is the digit just written), and index 19 is written
with the digit again. -/
def numpadPress (om : OperationManager) (digit : Int) : OperationManager :=
  let idx := if ¬ om.inNumpadInput then 0 else om.numpadIndex
  let om1 := { om with inNumpadInput := true, numpadIndex := idx }
  if 0 ≤ digit ∧ digit ≤ 9 then
    let ds := om1.numpadDigits.set idx.toNat digit
    if idx < 19 then { om1 with numpadDigits := ds, numpadIndex := idx + 1 }
    else { om1 with numpadDigits := ds.drop 1 ++ [digit] }
  else om1

/-- `OperationManager::calculateOperationParameters` (OperationManager.cpp
lines 1558–1584). -/
def calculateOperationParameters (om : OperationManager) : OperationManager :=
  if ¬ om.touchOffXValid ∨ ¬ om.touchOffZValid ∨
      om.targetDiameter = 0 ∨ om.targetZLength = 0 then om
  else
    let targetDiameterMm : ℚ := (om.targetDiameter : ℚ) / 10000
    let targetLengthMm : ℚ := (om.targetZLength : ℚ) / 10000
    let cutDepth' :=
      if om.isInternalOperation then
        mmToSteps (|targetDiameterMm - om.touchOffXCoord| / 2) 0
      else
        mmToSteps (|om.touchOffXCoord - targetDiameterMm| / 2) 0
    let cutLength' := mmToSteps targetLengthMm 1
    let cutLength' := if ¬ om.isLeftToRight then -cutLength' else cutLength'
    { om with cutDepth := cutDepth', cutLength := cutLength' }

end OperationManager

/-- The engine: the `OperationManager` singleton together with the
`MinimalMotionControl` singleton it drives through its `motionControl`
pointer. -/
structure SystemState where
  om : OperationManager
  mc : MinimalMotionControl
deriving DecidableEq

namespace OperationManager

/-- `OperationManager::startOperation` (OperationManager.cpp lines
713–772).  Returns the `bool` result and the new engine state.  Note that
`motionControl->setThreadPitch(absPitch * opDuprSign)` uses the default
second argument `starts = 1` (MinimalMotionControl.h line 163), so it
resets `threadStarts` to 1 before `getStarts()` is read at line 765. -/
def startOperation (s : SystemState) : Bool × SystemState :=
  if ¬ (s.om.touchOffXValid ∧ s.om.touchOffZValid) ∨
      s.om.currentState ≠ .STATE_READY then (false, s)
  else
    let om := calculateOperationParameters s.om
    if (om.currentMode ≠ .MODE_NORMAL ∧ om.currentMode ≠ .MODE_CONE) ∧
        (om.cutLength = 0 ∨ om.cutDepth = 0) then (false, { s with om := om })
    else
      let om := { om with currentState := .STATE_RUNNING,
                          passSubState := .SUBSTATE_MOVE_TO_START,
                          currentPass := 0 }
      let absPitch := |s.mc.spindle.threadPitch|
      let p : OperationManager × MinimalMotionControl :=
        if om.currentMode = .MODE_TURN ∨ om.currentMode = .MODE_FACE ∨
            om.currentMode = .MODE_CUT then
          let sgn : Int := if om.isLeftToRight then 1 else -1
          ({ om with opDuprSign := sgn }, s.mc.setThreadPitch (absPitch * sgn) 1)
        else if om.currentMode = .MODE_THREAD then
          let sgn : Int := if om.isLeftToRight then 1 else -1
          ({ om with opDuprSign := sgn }, s.mc.setThreadPitch (absPitch * sgn) 1)
        else ({ om with opDuprSign := 1 }, s.mc)
      let om := p.1
      let mc := p.2
      let mc :=
        if om.currentMode = .MODE_TURN ∨ om.currentMode = .MODE_FACE ∨
            om.currentMode = .MODE_THREAD ∨ om.currentMode = .MODE_CUT ∨
            om.currentMode = .MODE_CONE then mc.startThreading else mc
      let om := { om with opDupr := absPitch }
      let starts := mc.spindle.threadStarts
      let om := { om with startOffset :=
        if starts = 1 then 0 else cRound ((ENCODER_PPR : ℚ) * 2 / starts) }
      let om := { om with spindleSyncPos := mc.spindle.position }
      (true, { om := om, mc := mc })

/-- `OperationManager::stopOperation` (OperationManager.cpp lines
774–790). -/
def stopOperation (s : SystemState) : SystemState :=
  let om := { s.om with currentState := .STATE_IDLE, currentPass := 0,
                        passSubState := .SUBSTATE_MOVE_TO_START }
  let mc := s.mc.setTargetPosition 0 ((s.mc.axes 0).position)
  let mc := mc.setTargetPosition 1 ((mc.axes 1).position)
  let mc := mc.stopThreading
  { om := { om with arrowKeyMode := .ARROW_MOTION_MODE }, mc := mc }

/-- `OperationManager::moveToStartPosition` (OperationManager.cpp lines
807–855). -/
def moveToStartPosition (s : SystemState) : Bool × SystemState :=
  let startX :=
    match s.om.currentMode with
    | .MODE_FACE => if s.om.parkingPositionSet then s.om.parkingPositionX
                    else s.om.touchOffX
    | _ => s.om.touchOffX
  let startZ :=
    match s.om.currentMode with
    | .MODE_FACE => if s.om.parkingPositionSet then s.om.parkingPositionZ
                    else s.om.touchOffZ
    | _ => s.om.touchOffZ
  let mc := (s.mc.setTargetPosition 0 startX).setTargetPosition 1 startZ
  (if |(mc.axes 0).position - startX| < 5 ∧ |(mc.axes 1).position - startZ| < 5
   then true else false,
   { s with mc := mc })

/-- `OperationManager::waitForSpindleSync` (OperationManager.cpp lines
857–863): proceeds immediately. -/
def waitForSpindleSync (_ : SystemState) : Bool := true

/-- `OperationManager::performCuttingPass` (OperationManager.cpp lines
865–975). -/
def performCuttingPass (s : SystemState) : Bool × SystemState :=
  let currentDepth := (s.om.cutDepth * (s.om.currentPass + 1)).tdiv s.om.numPasses
  match s.om.currentMode with
  | .MODE_TURN | .MODE_THREAD =>
    let depthMm := stepsToMm currentDepth 0
    let targetDiameter := s.om.touchOffXCoord - 2 * depthMm
    let targetX := s.om.touchOffX +
      mmToSteps ((targetDiameter - s.om.touchOffXCoord) / 2) 0
    let mc := s.mc.setTargetPosition 0 targetX
    let targetZFromSpindle := mc.positionFromSpindle 1 mc.spindle.position
    let mc := mc.setTargetPosition 1 targetZFromSpindle
    let actualZMovement := (mc.axes 1).position - s.om.touchOffZ
    (if |s.om.cutLength| ≤ |actualZMovement| then true else false,
     { s with mc := mc })
  | .MODE_FACE =>
    let depthMm := stepsToMm currentDepth 1
    let targetZCoord := s.om.touchOffZCoord - depthMm
    let targetZ := s.om.touchOffZ + mmToSteps (targetZCoord - s.om.touchOffZCoord) 1
    let targetDiameter := s.om.touchOffXCoord - 2 * stepsToMm s.om.cutLength 0
    let targetX := s.om.touchOffX +
      mmToSteps ((targetDiameter - s.om.touchOffXCoord) / 2) 0
    let mc := (s.mc.setTargetPosition 1 targetZ).setTargetPosition 0 targetX
    (if |(mc.axes 0).position - targetX| < 5 then true else false,
     { s with mc := mc })
  | .MODE_CUT =>
    let targetXFromSpindle := s.mc.positionFromSpindle 0 s.mc.spindle.position
    let deltaX := targetXFromSpindle - s.mc.positionFromSpindle 0 s.om.spindleSyncPos
    let deltaXMm := stepsToMm deltaX 0
    let targetDiameter := s.om.touchOffXCoord - 2 * deltaXMm
    let targetX := s.om.touchOffX +
      mmToSteps ((targetDiameter - s.om.touchOffXCoord) / 2) 0
    let finalDiameter := s.om.touchOffXCoord - 2 * stepsToMm s.om.cutDepth 0
    let finalX := s.om.touchOffX +
      mmToSteps ((finalDiameter - s.om.touchOffXCoord) / 2) 0
    let targetX :=
      if (0 < s.om.cutDepth ∧ finalX < targetX) ∨
          (s.om.cutDepth < 0 ∧ targetX < finalX) then finalX else targetX
    let mc := s.mc.setTargetPosition 0 targetX
    (if targetX = finalX then true else false, { s with mc := mc })
  | .MODE_CONE =>
    let targetZFromSpindle := s.mc.positionFromSpindle 1 s.mc.spindle.position
    let deltaZ := targetZFromSpindle - s.mc.positionFromSpindle 1 s.om.spindleSyncPos
    let targetZ := s.om.touchOffZ + deltaZ
    let zMovementMm := stepsToMm deltaZ 1
    let diameterChange := zMovementMm * s.om.coneRatio * 2
    let targetDiameter := s.om.touchOffXCoord + diameterChange
    let targetX := s.om.touchOffX +
      mmToSteps ((targetDiameter - s.om.touchOffXCoord) / 2) 0
    let mc := (s.mc.setTargetPosition 1 targetZ).setTargetPosition 0 targetX
    (false, { s with mc := mc })
  | _ => (false, s)

/-- `OperationManager::retractTool` (OperationManager.cpp lines
977–987). -/
def retractTool (s : SystemState) : Bool × SystemState :=
  let safeX := if s.om.parkingPositionSet then s.om.parkingPositionX
               else s.om.touchOffX
  let mc := s.mc.setTargetPosition 0 safeX
  (if |(mc.axes 0).position - safeX| < 5 then true else false, { s with mc := mc })

/-- `OperationManager::returnToStart` (OperationManager.cpp lines
989–997). -/
def returnToStart (s : SystemState) : Bool × SystemState :=
  let mc := s.mc.setTargetPosition 1 s.om.touchOffZ
  (if |(mc.axes 1).position - s.om.touchOffZ| < 5 then true else false,
   { s with mc := mc })

/-- `OperationManager::executeNormalMode` (OperationManager.cpp lines
1036–1041). -/
def executeNormalMode (s : SystemState) : SystemState :=
  let mc := s.mc.setTargetPosition 1 (s.mc.positionFromSpindle 1 s.mc.spindle.position)
  { s with mc := mc }

/-- `OperationManager::executeTurnMode` (OperationManager.cpp lines
1043–1083).  In `SUBSTATE_SYNC_SPINDLE`, `waitForSpindleSync()` returns
`true` immediately and `spindleSyncPos` is set to the *current* raw
spindle position — `startOffset` and `currentPass` are not consulted. -/
def executeTurnMode (s : SystemState) : SystemState :=
  match s.om.passSubState with
  | .SUBSTATE_MOVE_TO_START =>
    let r := moveToStartPosition s
    if r.1 then
      { r.2 with om := { r.2.om with passSubState := .SUBSTATE_SYNC_SPINDLE } }
    else r.2
  | .SUBSTATE_SYNC_SPINDLE =>
    if waitForSpindleSync s then
      { s with om := { s.om with spindleSyncPos := s.mc.spindle.position,
                                 passSubState := .SUBSTATE_CUTTING } }
    else s
  | .SUBSTATE_CUTTING =>
    let r := performCuttingPass s
    if r.1 then
      { r.2 with om := { r.2.om with passSubState := .SUBSTATE_RETRACTING } }
    else r.2
  | .SUBSTATE_RETRACTING =>
    let r := retractTool s
    if r.1 then
      { r.2 with om := { r.2.om with passSubState := .SUBSTATE_RETURNING } }
    else r.2
  | .SUBSTATE_RETURNING =>
    let r := returnToStart s
    if r.1 then
      if r.2.om.currentPass < r.2.om.numPasses - 1 then
        { r.2 with om := { r.2.om with currentPass := r.2.om.currentPass + 1,
                                       passSubState := .SUBSTATE_MOVE_TO_START } }
      else stopOperation r.2
    else r.2

/-- `OperationManager::executeFaceMode` (OperationManager.cpp lines
1085–1088): delegates to `executeTurnMode`. -/
def executeFaceMode (s : SystemState) : SystemState := executeTurnMode s

/-- `OperationManager::executeThreadMode` (OperationManager.cpp lines
1090–1093): delegates to `executeTurnMode`. -/
def executeThreadMode (s : SystemState) : SystemState := executeTurnMode s

/-- `OperationManager::executeConeMode` (OperationManager.cpp lines
1095–1098). -/
def executeConeMode (s : SystemState) : SystemState := (performCuttingPass s).2

/-- `OperationManager::executeCutMode` (OperationManager.cpp lines
1100–1133); the `switch` has no `SUBSTATE_RETRACTING` case. -/
def executeCutMode (s : SystemState) : SystemState :=
  match s.om.passSubState with
  | .SUBSTATE_MOVE_TO_START =>
    let r := moveToStartPosition s
    if r.1 then
      { r.2 with om := { r.2.om with passSubState := .SUBSTATE_SYNC_SPINDLE } }
    else r.2
  | .SUBSTATE_SYNC_SPINDLE =>
    { s with om := { s.om with spindleSyncPos := s.mc.spindle.position,
                               passSubState := .SUBSTATE_CUTTING } }
  | .SUBSTATE_CUTTING =>
    let r := performCuttingPass s
    if r.1 then
      { r.2 with om := { r.2.om with passSubState := .SUBSTATE_RETURNING } }
    else r.2
  | .SUBSTATE_RETURNING =>
    let mc := s.mc.setTargetPosition 0 s.om.touchOffX
    let s' := { s with mc := mc }
    if |(mc.axes 0).position - s.om.touchOffX| < 5 then
      if s'.om.currentPass < s'.om.numPasses - 1 then
        { s' with om := { s'.om with currentPass := s'.om.currentPass + 1,
                                     passSubState := .SUBSTATE_MOVE_TO_START } }
      else stopOperation s'
    else s'
  | .SUBSTATE_RETRACTING => s

/-- `OperationManager::update` (OperationManager.cpp lines 999–1034).
There is no emergency-stop check here; `executeAsyncMode`,
`executeEllipseMode` and `executeGcodeMode` are TODO stubs
(OperationManager.cpp lines 1424–1440). -/
def update (s : SystemState) : SystemState :=
  if s.om.currentState ≠ .STATE_RUNNING then s
  else
    match s.om.currentMode with
    | .MODE_NORMAL => executeNormalMode s
    | .MODE_TURN => executeTurnMode s
    | .MODE_FACE => executeFaceMode s
    | .MODE_THREAD => executeThreadMode s
    | .MODE_CONE => executeConeMode s
    | .MODE_CUT => executeCutMode s
    | .MODE_ASYNC => s
    | .MODE_ELLIPSE => s
    | .MODE_GCODE => s

end OperationManager

/-- An emergency stop raised through the engine: every caller of
`setEmergencyStop(true)` in the repository (WebInterface.cpp lines
389–393, `MinimalMotionControl::shutdown`) calls only the
`MinimalMotionControl` method; nothing notifies the `OperationManager`. -/
def systemSetEmergencyStop (s : SystemState) (stop : Bool) : SystemState :=
  { s with mc := s.mc.setEmergencyStop stop }

end NanoELS

namespace NanoELS

/-! ## Claim C2 — emergency stop does NOT idle the workflow state machine -/

/-- A concrete engine state in the middle of a multi-pass turn: workflow
`Running`, second pass, mid-cut. -/
def runningTurnState : SystemState where
  om := { OperationManager.init with
            currentMode := .MODE_TURN
            currentState := .STATE_RUNNING
            passSubState := .SUBSTATE_CUTTING
            touchOffXValid := true
            touchOffZValid := true
            currentPass := 1
            numPasses := 3 }
  mc := MinimalMotionControl.init

/-- Counterexample to C2.  `setEmergencyStop(true)` touches only the
`MinimalMotionControl` object; `OperationManager::currentState` stays
`STATE_RUNNING` (it is not `STATE_IDLE`), and the pass progress
(`currentPass = 1`) is retained.  No call path from
`MinimalMotionControl::setEmergencyStop` (MinimalMotionControl.cpp lines
370–376) or its callers (WebInterface.cpp lines 389–393) reaches the
`OperationManager`, and `OperationManager::update` (OperationManager.cpp
lines 999–1034) never reads the emergency flag. -/
theorem emergencyStop_leaves_workflow_running :
    (systemSetEmergencyStop runningTurnState true).om.currentState =
      OperationState.STATE_RUNNING ∧
    (systemSetEmergencyStop runningTurnState true).om.currentPass = 1 ∧
    OperationState.STATE_RUNNING ≠ OperationState.STATE_IDLE :=
  ⟨rfl, rfl, by decide⟩

/-- C2 amended.  After `setEmergencyStop(true)` both axes are stopped
(`targetPosition = position`, `moving = false`), but the
`OperationManager` state — including `OperationState` and the pass
progress — is completely unchanged; the workflow is *not* transitioned to
`Idle`. -/
theorem emergencyStop_stops_axes_but_not_workflow (s : SystemState) (i : Fin 2) :
    (systemSetEmergencyStop s true).om = s.om ∧
    ((systemSetEmergencyStop s true).mc.axes i).targetPosition =
      (s.mc.axes i).position ∧
    ((systemSetEmergencyStop s true).mc.axes i).moving = false ∧
    (systemSetEmergencyStop s true).mc.spindle.threadingActive = false := by
  obtain ⟨h1, h2, h3⟩ := setEmergencyStop_true_mc s.mc i
  exact ⟨rfl, h1, h2, h3⟩

/-! ## Claim C10 — numpad digit-entry buffer bounds and overflow shift -/

def pressRun (om : OperationManager) (ds : List Int) : OperationManager :=
  ds.foldl OperationManager.numpadPress om

/-- Numpad well-formedness: index inside `[0, 19]`, 20-slot buffer. -/
def numpadWf (om : OperationManager) : Prop :=
  0 ≤ om.numpadIndex ∧ om.numpadIndex ≤ 19 ∧ om.numpadDigits.length = 20

theorem numpadWf_init : numpadWf OperationManager.init := by
  refine ⟨by decide, by decide, ?_⟩
  simp [OperationManager.init]

theorem numpadWf_press {om : OperationManager} (h : numpadWf om) (d : Int) :
    numpadWf (om.numpadPress d) := by
  obtain ⟨h0, h19, hlen⟩ := h
  unfold OperationManager.numpadPress
  refine ⟨?_, ?_, ?_⟩ <;>
    simp only [apply_ite OperationManager.numpadIndex,
      apply_ite OperationManager.numpadDigits, apply_ite List.length] <;>
    split_ifs <;> (try simp_all) <;> omega

theorem numpadWf_run {om : OperationManager} (h : numpadWf om)
    (ds : List Int) : numpadWf (pressRun om ds) := by
  induction ds generalizing om with
  | nil => exact h
  | cons d ds ih => exact ih (numpadWf_press h d)

set_option maxRecDepth 4000 in
/-- Counterexample to C10.  Enter nineteen 1s and then a 2 — twenty
digits in all.  Under the claimed behaviour no digit may be discarded
before 20 digits are stored, so index 18 would still hold the 19th
entered digit (a 1).  The code instead shifts already on the 20th press
and, because the new digit is written at index 19 *before* the left
shift, the 2 ends up at index 18 (and again at index 19)
(OperationManager.cpp lines 126–137). -/
theorem numpadPress_overflow_counterexample :
    (pressRun OperationManager.init
        (List.replicate 19 1 ++ [2])).numpadDigits.getD 18 0 = 2 ∧
    ¬ ((pressRun OperationManager.init
        (List.replicate 19 1 ++ [2])).numpadDigits.getD 18 0 = 1) := by
  decide

/-- C10 amended.  For every sequence of `numpadPress` calls from the
initial state, `numpadIndex` stays in `[0, 19]` and the buffer keeps
exactly 20 slots (so every write `numpadDigits[numpadIndex]` and the
shift loop stay in bounds).  Overflow behaviour: once 19 digits are
stored (`numpadIndex == 19`), each further press writes the new digit at
index 19, shifts elements 1…19 left to 0…18 — discarding the oldest
stored digit and duplicating the new digit into index 18 — and writes the
new digit at index 19 again; `numpadIndex` stays 19. -/
theorem numpadPress_bounds_and_shift (ds : List Int) (om : OperationManager)
    (d : Int) (h19 : om.numpadIndex = 19) (hin : om.inNumpadInput = true)
    (hd : 0 ≤ d ∧ d ≤ 9) :
    numpadWf (pressRun OperationManager.init ds) ∧
    (om.numpadPress d).numpadDigits = (om.numpadDigits.set 19 d).drop 1 ++ [d] ∧
    (om.numpadPress d).numpadIndex = 19 := by
  refine ⟨numpadWf_run numpadWf_init ds, ?_, ?_⟩ <;>
  · unfold OperationManager.numpadPress
    simp [hin, h19, hd.1, hd.2]

/-- Witness for C10's amended statement: three presses from the initial
state, and an overflow press of digit 7 on a buffer filled with
nineteen 5s. -/
theorem numpadPress_bounds_and_shift_witness :
    numpadWf (pressRun OperationManager.init [1, 2, 3]) ∧
    (({ OperationManager.init with
          numpadIndex := 19, inNumpadInput := true,
          numpadDigits := List.replicate 19 5 ++ [0] }).numpadPress 7).numpadDigits =
      ((List.replicate 19 5 ++ [0] : List Int).set 19 7).drop 1 ++ [7] ∧
    (({ OperationManager.init with
          numpadIndex := 19, inNumpadInput := true,
          numpadDigits := List.replicate 19 5 ++ [0] }).numpadPress 7).numpadIndex = 19 :=
  numpadPress_bounds_and_shift [1, 2, 3]
    { OperationManager.init with
        numpadIndex := 19, inNumpadInput := true,
        numpadDigits := List.replicate 19 5 ++ [0] }
    7 rfl rfl (by decide)

end NanoELS

namespace NanoELS

/-! ## Claim C5 — multi-start phase offset is never applied -/

/-- A running threading operation (`starts = 2`, pitch 1 mm) whose pass
sub-state machine has just entered `SUBSTATE_SYNC_SPINDLE` for pass
`pass`, with the spindle at absolute position 0. -/
def syncPassState (pass : Int) : SystemState where
  om := { OperationManager.init with
            currentMode := .MODE_THREAD
            currentState := .STATE_RUNNING
            passSubState := .SUBSTATE_SYNC_SPINDLE
            currentPass := pass
            numPasses := 2 }
  mc := { MinimalMotionControl.init with
            spindle := { MinimalMotionControl.init.spindle with
                           threadPitch := 10000
                           threadStarts := 2
                           threadingActive := true } }

/-- A threading setup ready to start: touch-off done (⌀20 mm), target
⌀18 mm × 30 mm, `starts = 2` configured in the motion controller. -/
def threadReadyState : SystemState where
  om := { OperationManager.init with
            currentMode := .MODE_THREAD
            currentState := .STATE_READY
            touchOffXValid := true
            touchOffZValid := true
            touchOffXCoord := 20
            touchOffZCoord := 0
            targetDiameter := 180000
            targetZLength := 300000
            isLeftToRight := true }
  mc := { MinimalMotionControl.init with
            spindle := { MinimalMotionControl.init.spindle with
                           threadPitch := 10000
                           threadStarts := 2 } }

/-- C5 (code bug).  With `starts = 2` and `ENCODER_PPR = 600` the claimed
phase shift between pass 0's and pass 1's `spindleSyncPos` is
`startOffset × 1 = 600` encoder ticks.  The code applies none: the
`SUBSTATE_SYNC_SPINDLE` step of `executeTurnMode` (OperationManager.cpp
lines 1051–1057) stores the raw spindle position for *every* pass, so
both passes beginning at spindle position 0 get `spindleSyncPos = 0` —
difference 0, not 600.  (`startOffset` is computed at
`startOperation` — OperationManager.cpp line 766 — but never read
anywhere; worse, it is itself 0 because the one-argument
`setThreadPitch` call at line 749 resets `threadStarts` to 1 before
`getStarts()` is read at line 765; the second conjunct pair shows this.) -/
theorem multiStart_syncPos_never_offset :
    (OperationManager.executeTurnMode (syncPassState 0)).om.spindleSyncPos = 0 ∧
    (OperationManager.executeTurnMode (syncPassState 1)).om.spindleSyncPos = 0 ∧
    (OperationManager.executeTurnMode (syncPassState 1)).om.spindleSyncPos -
      (OperationManager.executeTurnMode (syncPassState 0)).om.spindleSyncPos ≠ 600 ∧
    (OperationManager.startOperation threadReadyState).2.mc.spindle.threadStarts = 1 ∧
    (OperationManager.startOperation threadReadyState).2.om.startOffset = 0 := by
  refine ⟨rfl, rfl, by decide, ?_, ?_⟩ <;>
  · unfold OperationManager.startOperation OperationManager.calculateOperationParameters
      OperationManager.mmToSteps threadReadyState
    norm_num [OperationManager.init, MinimalMotionControl.init, cRound,
      MinimalMotionControl.setThreadPitch, MinimalMotionControl.startThreading,
      MOTOR_STEPS_Z, SCREW_Z_DU, MOTOR_STEPS_X, SCREW_X_DU, Int.floor_eq_iff]

end NanoELS

namespace NanoELS

/-! ## Claim C7 — `startOperation` rejection paths -/

/-- A turn setup in `Ready` with touch-off complete whose target diameter
equals the touch-off diameter (⌀20 mm → ⌀20 mm), so the computed
`cutDepth` is 0 while the computed `cutLength` (30 mm) is not. -/
def zeroDepthReadyState : SystemState where
  om := { OperationManager.init with
            currentMode := .MODE_TURN
            currentState := .STATE_READY
            touchOffXValid := true
            touchOffZValid := true
            touchOffXCoord := 20
            targetDiameter := 200000
            targetZLength := 300000
            isLeftToRight := true }
  mc := MinimalMotionControl.init

/-- Counterexample to C7.  Called in `Ready` with touch-off complete but
a zero computed `cutDepth`, `startOperation` returns `false` — yet it has
already mutated state: `calculateOperationParameters()` (invoked at
OperationManager.cpp line 719, before the zero check at lines 722–726)
overwrites `cutLength` from 0 to 24000 steps.  "Returns false and mutates
no state" is therefore false on this path. -/
theorem startOperation_mutates_on_reject_counterexample :
    (OperationManager.startOperation zeroDepthReadyState).1 = false ∧
    (OperationManager.startOperation zeroDepthReadyState).2.om.cutLength = 24000 ∧
    zeroDepthReadyState.om.cutLength = 0 := by
  refine ⟨?_, ?_, rfl⟩ <;>
  · unfold OperationManager.startOperation
      OperationManager.calculateOperationParameters OperationManager.mmToSteps
      zeroDepthReadyState
    norm_num [OperationManager.init, MinimalMotionControl.init, cRound,
      MOTOR_STEPS_Z, SCREW_Z_DU, MOTOR_STEPS_X, SCREW_X_DU, Int.floor_eq_iff]
    rw [if_pos (by decide)]

/-- C7 amended.  `startOperation()` returns `false` with *no* state
change when the workflow is not exactly `Ready` with touch-off complete
(OperationManager.cpp lines 714–716).  When it *is* in `Ready` with
touch-off complete and the mode requires cut parameters, it returns
`false` when the freshly computed `cutLength` or `cutDepth` is zero — but
on that path the state has already been mutated: the operation parameters
were recomputed by `calculateOperationParameters()` before the check
(OperationManager.cpp lines 719–726). -/
theorem startOperation_reject_behaviour (s : SystemState)
    (h1 : ¬ (s.om.touchOffXValid ∧ s.om.touchOffZValid) ∨
      s.om.currentState ≠ .STATE_READY) :
    OperationManager.startOperation s = (false, s) ∧
    (∀ s' : SystemState,
      s'.om.touchOffXValid = true → s'.om.touchOffZValid = true →
      s'.om.currentState = .STATE_READY →
      ((OperationManager.calculateOperationParameters s'.om).currentMode ≠
          .MODE_NORMAL ∧
       (OperationManager.calculateOperationParameters s'.om).currentMode ≠
          .MODE_CONE) →
      ((OperationManager.calculateOperationParameters s'.om).cutLength = 0 ∨
       (OperationManager.calculateOperationParameters s'.om).cutDepth = 0) →
      OperationManager.startOperation s' =
        (false, { s' with om := OperationManager.calculateOperationParameters s'.om })) := by
  constructor
  · unfold OperationManager.startOperation
    rw [if_pos h1]
  · intro s' hx hz hst hmode hzero
    unfold OperationManager.startOperation
    rw [if_neg (by simp [hx, hz, hst]), if_pos ⟨hmode, hzero⟩]

/-- Witness for C7's amended statement: `startOperation` from the initial
(idle) engine state is rejected without any state change. -/
theorem startOperation_reject_behaviour_witness :
    OperationManager.startOperation
      ⟨OperationManager.init, MinimalMotionControl.init⟩ =
      (false, ⟨OperationManager.init, MinimalMotionControl.init⟩) :=
  (startOperation_reject_behaviour
    ⟨OperationManager.init, MinimalMotionControl.init⟩ (by decide)).1

end NanoELS

namespace NanoELS

/-! ## Claim C6 — the two spindle→axis mappings do not agree -/

set_option linter.unusedVariables false in
/-- `OperationManager::posFromSpindle` (OperationManager.cpp lines
86–103).  The C expression for Z is
`spindlePos * MOTOR_STEPS_Z / (SCREW_Z_DU / 10000.0f) / encoderSteps * dupr * starts`:
a 32-bit multiply (wrapping) divided by the *float* `SCREW_DU / 10000.0f`,
by `encoderSteps = ENCODER_PPR * 2.0f`, then times `dupr * starts`,
truncated back to `long`.  The `respectLimits` parameter is ignored — the
body carries a `TODO: Implement limit checking`. -/
def OperationManager.posFromSpindle (s : SystemState) (axis : Fin 2)
    (spindlePos : Int) (respectLimits : Bool) : Int :=
  let dupr := s.mc.spindle.threadPitch
  let starts := s.mc.spindle.threadStarts
  if axis = 1 then
    ratTrunc ((wrap32 (spindlePos * MOTOR_STEPS_Z) : ℚ) /
      ((SCREW_Z_DU : ℚ) / 10000) / ((ENCODER_PPR : ℚ) * 2) * dupr * starts)
  else
    ratTrunc ((wrap32 (spindlePos * MOTOR_STEPS_X) : ℚ) /
      ((SCREW_X_DU : ℚ) / 10000) / ((ENCODER_PPR : ℚ) * 2) * dupr * starts)

/-- The reference formula, following the spec's words (§4.3):
`spindleTicks × motorStepsPerRev / screwPitchDeciMicrons × (10000) /
encoderCountsPerRev × dupr × starts`, exactly over `ℚ`. -/
def specAxisStepsFromSpindleTicks (axis : Fin 2)
    (spindleTicks dupr starts : Int) : ℚ :=
  if axis = 0 then
    (spindleTicks : ℚ) * MOTOR_STEPS_X / SCREW_X_DU * 10000 / 1200 * dupr * starts
  else
    (spindleTicks : ℚ) * MOTOR_STEPS_Z / SCREW_Z_DU * 10000 / 1200 * dupr * starts

/-- A motion-controller state geared for synchronized motion on Z with
thread pitch `p` (du/rev) and `st` starts; soft limits at the defaults. -/
def zPitchState (p st : Int) : MinimalMotionControl :=
  { MinimalMotionControl.init with
      spindle := { MinimalMotionControl.init.spindle with
                     threadPitch := p
                     threadStarts := st
                     threadingActive := true } }

/-- Counterexample to C6.  One spindle revolution (1200 ticks) on Z with
`dupr = 50000` (5 mm pitch, equal to the Z lead-screw pitch) and one
start: the reference formula of the spec gives 40 000 000 steps, and
`OperationManager::posFromSpindle` computes exactly that — but
`MinimalMotionControl::positionFromSpindle` (the mapping actually used
for control, MinimalMotionControl.cpp lines 144–156) returns 4 000 steps
(one motor revolution — the physically correct value).  The two
implementations do not both compute the reference formula; they disagree
by a factor of 10 000. -/
theorem positionFromSpindle_ref_formula_counterexample :
    (zPitchState 50000 1).positionFromSpindle 1 1200 = 4000 ∧
    specAxisStepsFromSpindleTicks 1 1200 50000 1 = 40000000 ∧
    OperationManager.posFromSpindle
      ⟨OperationManager.init, zPitchState 50000 1⟩ 1 1200 true = 40000000 ∧
    ((zPitchState 50000 1).positionFromSpindle 1 1200 : ℚ) ≠
      specAxisStepsFromSpindleTicks 1 1200 50000 1 := by
  have hw : wrap32 4800000 = 4800000 := by decide
  have ht : (4800000 : Int).tdiv 50000 = 96 := by decide
  refine ⟨?_, ?_, ?_, ?_⟩
  · unfold MinimalMotionControl.positionFromSpindle
    simp only [zPitchState, MinimalMotionControl.init]
    norm_num [hw, ht, ratTrunc, LONG_MAX, LONG_MIN, MOTOR_STEPS_Z, SCREW_Z_DU,
      Int.floor_eq_iff]
  · norm_num [specAxisStepsFromSpindleTicks, MOTOR_STEPS_Z, SCREW_Z_DU]
  · unfold OperationManager.posFromSpindle
    simp only [zPitchState, MinimalMotionControl.init]
    norm_num [hw, ratTrunc, MOTOR_STEPS_Z, SCREW_Z_DU, ENCODER_PPR,
      Int.floor_eq_iff]
  · unfold MinimalMotionControl.positionFromSpindle
    simp only [zPitchState, MinimalMotionControl.init]
    norm_num [hw, ht, ratTrunc, LONG_MAX, LONG_MIN, MOTOR_STEPS_Z, SCREW_Z_DU,
      specAxisStepsFromSpindleTicks, Int.floor_eq_iff]

end NanoELS

namespace NanoELS

/-- C6 amended.  The two implementations of the spindle→axis mapping do
not compute the same function.  For whole spindle revolutions
`t = 1200·k` on Z with `dupr = 50000` and one start (any `|k| ≤ 400`, so
no 32-bit wraparound):
`MinimalMotionControl::positionFromSpindle` — the mapping used for
control — returns `4000·k` (the spec's formula *without* the `×10000`
factor, clamped to the soft limits), while
`OperationManager::posFromSpindle` returns `40000000·k`, exactly the
spec's reference formula *with* the `×10000` factor but ignoring its
`respectLimits` argument.  The two differ by a factor of 10000. -/
theorem posFromSpindle_implementations_disagree (k : Int) (hk : |k| ≤ 400) :
    (zPitchState 50000 1).positionFromSpindle 1 (1200 * k) = 4000 * k ∧
    OperationManager.posFromSpindle
      ⟨OperationManager.init, zPitchState 50000 1⟩ 1 (1200 * k) true =
      40000000 * k ∧
    (∀ b1 b2 : Bool,
      OperationManager.posFromSpindle
        ⟨OperationManager.init, zPitchState 50000 1⟩ 1 (1200 * k) b1 =
      OperationManager.posFromSpindle
        ⟨OperationManager.init, zPitchState 50000 1⟩ 1 (1200 * k) b2) ∧
    OperationManager.posFromSpindle
      ⟨OperationManager.init, zPitchState 50000 1⟩ 1 (1200 * k) true =
      10000 * (zPitchState 50000 1).positionFromSpindle 1 (1200 * k) := by
  obtain ⟨hk1, hk2⟩ := abs_le.mp hk
  have hprod : 1200 * k * 4000 = 4800000 * k := by ring
  have hw : wrap32 (1200 * k * 4000) = 4800000 * k := by
    rw [hprod]
    exact wrap32_eq_self (by omega) (by omega)
  have htd : (4800000 * k).tdiv 50000 = 96 * k := by
    have h : (4800000 : Int) * k = 50000 * (96 * k) := by ring
    rw [h, Int.mul_tdiv_cancel_left _ (by norm_num)]
  have hrat : ((96 * k : Int) : ℚ) / 1200 * 50000 = ((4000 * k : Int) : ℚ) := by
    push_cast
    ring
  have hP : (zPitchState 50000 1).positionFromSpindle 1 (1200 * k) = 4000 * k := by
    unfold MinimalMotionControl.positionFromSpindle
    simp only [zPitchState, MinimalMotionControl.init]
    norm_num [MOTOR_STEPS_Z, SCREW_Z_DU, LONG_MAX, LONG_MIN]
    rw [hw, htd, hrat, ratTrunc_intCast]
    rw [if_neg (by omega), if_neg (by omega)]
  have hrat2 : ((4800000 * k : Int) : ℚ) / 5 / 1200 * 50000 =
      ((40000000 * k : Int) : ℚ) := by
    push_cast
    ring
  have hQ : OperationManager.posFromSpindle
      ⟨OperationManager.init, zPitchState 50000 1⟩ 1 (1200 * k) true =
      40000000 * k := by
    unfold OperationManager.posFromSpindle
    simp only [zPitchState, MinimalMotionControl.init]
    norm_num [MOTOR_STEPS_Z, SCREW_Z_DU, ENCODER_PPR]
    rw [hw, hrat2, ratTrunc_intCast]
  exact ⟨hP, hQ, fun b1 b2 => rfl, by rw [hP, hQ]; ring⟩

/-- Witness for C6's amended statement: one forward spindle revolution. -/
theorem posFromSpindle_implementations_disagree_witness :
    (zPitchState 50000 1).positionFromSpindle 1 (1200 * 1) = 4000 * 1 ∧
    OperationManager.posFromSpindle
      ⟨OperationManager.init, zPitchState 50000 1⟩ 1 (1200 * 1) true =
      40000000 * 1 ∧
    (∀ b1 b2 : Bool,
      OperationManager.posFromSpindle
        ⟨OperationManager.init, zPitchState 50000 1⟩ 1 (1200 * 1) b1 =
      OperationManager.posFromSpindle
        ⟨OperationManager.init, zPitchState 50000 1⟩ 1 (1200 * 1) b2) ∧
    OperationManager.posFromSpindle
      ⟨OperationManager.init, zPitchState 50000 1⟩ 1 (1200 * 1) true =
      10000 * (zPitchState 50000 1).positionFromSpindle 1 (1200 * 1) :=
  posFromSpindle_implementations_disagree 1 (by decide)

end NanoELS

namespace NanoELS

/-! ## Claim C9 — the synchronizer round trip -/

theorem abs_tmod_lt (a : Int) {b : Int} (hb : 0 < b) : |a.tmod b| < b := by
  rcases le_or_lt 0 a with h | h
  · rw [abs_of_nonneg (Int.tmod_nonneg b h)]
    exact Int.tmod_lt_of_pos a hb
  · have h2 : a.tmod b = -((-a).tmod b) := by
      rw [Int.tmod_def, Int.tmod_def, Int.neg_tdiv]
      ring
    rw [h2, abs_neg, abs_of_nonneg (Int.tmod_nonneg b (by omega))]
    exact Int.tmod_lt_of_pos (-a) hb

/-- Pure arithmetic core of the round-trip tolerance: truncating the
forward map (integer pre-division with remainder `r`, then rational
truncation) and the inverse map loses less than
`15000/|p·st| + 1 + 25/2` encoder ticks. -/
theorem roundtrip_arith (t p st q r : Int) (hp : p ≠ 0) (hs : 1 ≤ st)
    (hqr : 50000 * q + r = t * 4000) (hr : |r| < 50000) :
    |((ratTrunc (((ratTrunc ((q : ℚ) / 1200 * p * st) : Int) : ℚ) * 50000 * 1200
        / 4000 / ((p : ℚ) * st)) : Int) : ℚ) - t| <
      15000 / |(p : ℚ) * st| + 27 / 2 := by
  have hst0 : (st : ℚ) ≠ 0 := by
    have : st ≠ 0 := by omega
    exact_mod_cast this
  have hp0 : (p : ℚ) ≠ 0 := Int.cast_ne_zero.mpr hp
  have hpsQ : (p : ℚ) * st ≠ 0 := mul_ne_zero hp0 hst0
  have hpsabs : 0 < |(p : ℚ) * st| := abs_pos.mpr hpsQ
  set v1 : ℚ := (q : ℚ) / 1200 * p * st with hv1def
  set P : Int := ratTrunc v1 with hPdef
  set v2 : ℚ := (P : ℚ) * 50000 * 1200 / 4000 / ((p : ℚ) * st) with hv2def
  set R : Int := ratTrunc v2 with hRdef
  have hc : (50000 : ℚ) * q + r = t * 4000 := by exact_mod_cast hqr
  have hqQ : (q : ℚ) = (4000 * t - r) / 50000 := by
    field_simp
    linarith
  have hf : |v1 - (P : ℚ)| < 1 := sub_ratTrunc_lt_one v1
  have h1 : |v2 - (R : ℚ)| < 1 := sub_ratTrunc_lt_one v2
  have hv2t : v2 - t = -((r : ℚ) / 4000) - (v1 - P) * 15000 / ((p : ℚ) * st) := by
    rw [hv2def, hv1def, hqQ]
    field_simp
    ring
  have hrQ : |(r : ℚ)| < 50000 := by
    rw [← Int.cast_abs]
    exact_mod_cast hr
  have h3 : |(r : ℚ) / 4000| < 25 / 2 := by
    rw [abs_div]
    rw [abs_of_pos (by norm_num : (0 : ℚ) < 4000)]
    linarith [hrQ]
  have h4 : |(v1 - P) * 15000 / ((p : ℚ) * st)| < 15000 / |(p : ℚ) * st| := by
    rw [abs_div, abs_mul]
    rw [abs_of_pos (by norm_num : (0 : ℚ) < 15000)]
    rw [div_lt_div_iff₀ hpsabs hpsabs]
    have : |v1 - (P : ℚ)| * 15000 < 15000 := by nlinarith [abs_nonneg (v1 - (P : ℚ))]
    nlinarith [hpsabs]
  have h2 : |v2 - (t : ℚ)| ≤ |(r : ℚ) / 4000| + |(v1 - P) * 15000 / ((p : ℚ) * st)| := by
    rw [hv2t]
    calc |-((r : ℚ) / 4000) - (v1 - P) * 15000 / ((p : ℚ) * st)|
        ≤ |-((r : ℚ) / 4000)| + |(v1 - P) * 15000 / ((p : ℚ) * st)| :=
          abs_sub _ _
      _ = |(r : ℚ) / 4000| + |(v1 - P) * 15000 / ((p : ℚ) * st)| := by
          rw [abs_neg]
  calc |(R : ℚ) - t| ≤ |(R : ℚ) - v2| + |v2 - (t : ℚ)| := abs_sub_le _ _ _
    _ < 1 + (25 / 2 + 15000 / |(p : ℚ) * st|) := by
        rw [abs_sub_comm]
        linarith
    _ = 15000 / |(p : ℚ) * st| + 27 / 2 := by ring

end NanoELS

namespace NanoELS

/-- C9 amended.  For the Z axis constants, every pitch `p ≠ 0`, starts
`st ≥ 1` and `|t| ≤ 100000`, *provided* no 32-bit overflow occurs in
`spindleFromPosition`'s intermediate products and the forward result is
not clamped by the soft limits, the round trip
`spindleFromPosition(positionFromSpindle(t))` returns `t` to within
`15000/|p·st| + 27/2` encoder ticks — the quantisation of one motor step
(`15000/|p·st|` ticks) plus the integer-division and truncation losses.
Without the no-overflow proviso the claim is false (see the
counterexample). -/
theorem spindle_roundTrip_tolerance (t p st : Int) (hp : p ≠ 0) (hs : 1 ≤ st)
    (ht : |t| ≤ 100000) (hps : |p * st| < 2 ^ 31)
    (hP : |ratTrunc ((((t * 4000).tdiv 50000 : Int) : ℚ) / 1200 * p * st)| * 50000 <
      2 ^ 31)
    (hnc : |ratTrunc ((((t * 4000).tdiv 50000 : Int) : ℚ) / 1200 * p * st)| ≤
      LONG_MAX) :
    |((zPitchState p st).spindleFromPosition 1
        ((zPitchState p st).positionFromSpindle 1 t) : ℚ) - t| <
      15000 / |(p : ℚ) * st| + 27 / 2 := by
  obtain ⟨ht1, ht2⟩ := abs_le.mp ht
  have hA : wrap32 (t * 4000) = t * 4000 :=
    wrap32_eq_self (by omega) (by omega)
  obtain ⟨hncl, hncr⟩ := abs_le.mp hnc
  rw [LONG_MAX] at hncr hncl
  have hfwd : (zPitchState p st).positionFromSpindle 1 t =
      ratTrunc ((((t * 4000).tdiv 50000 : Int) : ℚ) / 1200 * p * st) := by
    unfold MinimalMotionControl.positionFromSpindle
    simp only [zPitchState, MinimalMotionControl.init]
    norm_num [MOTOR_STEPS_Z, SCREW_Z_DU, LONG_MAX, LONG_MIN]
    rw [hA]
    rw [if_neg (by omega), if_neg (by omega)]
  obtain ⟨hps1, hps2⟩ := abs_lt.mp hps
  have hPabs : |ratTrunc ((((t * 4000).tdiv 50000 : Int) : ℚ) / 1200 * p * st) *
      50000| < 2 ^ 31 := by
    rw [abs_mul]
    simpa using hP
  obtain ⟨hPw1, hPw2⟩ := abs_lt.mp hPabs
  have hinv : (zPitchState p st).spindleFromPosition 1
      (ratTrunc ((((t * 4000).tdiv 50000 : Int) : ℚ) / 1200 * p * st)) =
      ratTrunc (((ratTrunc ((((t * 4000).tdiv 50000 : Int) : ℚ) / 1200 * p * st) :
        Int) : ℚ) * 50000 * 1200 / 4000 / ((p : ℚ) * st)) := by
    unfold MinimalMotionControl.spindleFromPosition
    simp only [zPitchState, MinimalMotionControl.init]
    norm_num [MOTOR_STEPS_Z, SCREW_Z_DU]
    rw [wrap32_eq_self (by omega) (by omega), wrap32_eq_self (by omega) (by omega)]
    congr 1
    push_cast
    ring
  rw [hfwd, hinv]
  exact roundtrip_arith t p st ((t * 4000).tdiv 50000) ((t * 4000).tmod 50000)
    hp hs (Int.tdiv_add_tmod (t * 4000) 50000) (abs_tmod_lt (t * 4000) (by norm_num))

/-- Witness for C9's amended statement: one spindle revolution
(`t = 1200`) at `dupr = 50000`, one start — the round trip returns
exactly 1200. -/
theorem spindle_roundTrip_tolerance_witness :
    |((zPitchState 50000 1).spindleFromPosition 1
        ((zPitchState 50000 1).positionFromSpindle 1 1200) : ℚ) - 1200| <
      15000 / |(50000 : ℚ) * 1| + 27 / 2 :=
  spindle_roundTrip_tolerance 1200 50000 1 (by decide) (by decide) (by decide)
    (by decide)
    (by
      have h : (4800000 : Int).tdiv 50000 = 96 := by decide
      norm_num [ratTrunc, h])
    (by
      have h : (4800000 : Int).tdiv 50000 = 96 := by decide
      norm_num [ratTrunc, h, LONG_MAX])

/-- Counterexample to C9.  At `t = 100000`, `dupr = 50000` (5 mm pitch),
one start — well inside the claimed `[-100000, 100000]` window, with the
mapped position (333333 steps) nowhere near the default soft limits —
the 32-bit product `axisPos * screwPitch = 333333 × 50000` inside
`spindleFromPosition` (MinimalMotionControl.cpp line 163) overflows and
wraps, and the round trip returns −3079 instead of ≈100000: off by
103079 ticks, beyond any integer-rounding tolerance (the forward map's
quantisation here is 0.3 ticks per step). -/
theorem spindle_roundTrip_overflow_counterexample :
    (zPitchState 50000 1).positionFromSpindle 1 100000 = 333333 ∧
    (zPitchState 50000 1).spindleFromPosition 1
      ((zPitchState 50000 1).positionFromSpindle 1 100000) = -3079 ∧
    |(-3079 : Int) - 100000| = 103079 := by
  have hw : wrap32 400000000 = 400000000 := by decide
  have ht : (400000000 : Int).tdiv 50000 = 8000 := by decide
  have hw2 : wrap32 16666650000 = -513219184 := by decide
  have hw3 : wrap32 50000 = 50000 := by decide
  have hfwd : (zPitchState 50000 1).positionFromSpindle 1 100000 = 333333 := by
    unfold MinimalMotionControl.positionFromSpindle
    simp only [zPitchState, MinimalMotionControl.init]
    norm_num [MOTOR_STEPS_Z, SCREW_Z_DU, LONG_MAX, LONG_MIN, hw, ht, ratTrunc]
  refine ⟨hfwd, ?_, by decide⟩
  rw [hfwd]
  unfold MinimalMotionControl.spindleFromPosition
  simp only [zPitchState, MinimalMotionControl.init]
  norm_num [MOTOR_STEPS_Z, SCREW_Z_DU, hw2, hw3, ratTrunc, Int.ceil_eq_iff]

end NanoELS
